import Mathlib

/-!
Verification of the `libgit2-sys` build script (`src/libgit2-sys/build.rs`).

The script is shallowly embedded: the process environment, the pkg-config
probe, the filesystem and the external cmake invocation are explicit inputs
(a `World`), and `main` is a pure function from a `World` to the
observable outcome of the run (panic / early return / completion), the accumulated
cmake configuration (cflags, defines, registered cmake dependencies), the
environment after the `register_dep` mutations, and the `cargo:` directives
printed by the script itself.

Path-list parsing follows the POSIX behaviour of the Rust functions
`std::env::split_paths` / `std::env::join_paths`: the separator is `':'`,
splitting a byte string on the separator yields one piece more than the
number of separators (in particular the empty string parses as a single
empty path), and joining fails (`unwrap` panics) when a path contains the
separator.
-/

namespace Git2Build

/-- Prefix test on character lists (the Rust byte-slice `starts_with`). -/
def isPre : List Char → List Char → Bool
  | [], _ => true
  | _ :: _, [] => false
  | a :: s1, b :: s2 => a == b && isPre s1 s2

/-- Substring search helper: does `sub` occur in `l`? -/
def containsAux (sub : List Char) : List Char → Bool
  | [] => sub.isEmpty
  | c :: cs => isPre sub (c :: cs) || containsAux sub cs

/-- The Rust `str::contains` for literal substrings: `containsSub s sub` is
`true` iff `sub` occurs contiguously in `s`. -/
def containsSub (s sub : String) : Bool := containsAux sub.data s.data

/-- The process environment: an association list from variable names to
values. `getVar` is `std::env::var` (first binding wins). -/
abbrev Env : Type := List (String × String)

/-- The Rust `std::env::var`: `Ok` exactly when the variable is bound. -/
def getVar (e : Env) (k : String) : Option String :=
  (List.find? (fun p => p.1 == k) e).map (fun p => p.2)

/-- The Rust `std::env::set_var`: rebinding shadows any previous binding. -/
def setVar (e : Env) (k v : String) : Env :=
  (k, v) :: List.filter (fun p => !(p.1 == k)) e

/-- Splitting a character list on the separator `':'`
(the Rust `std::env::split_paths` on unix, at the byte level): the empty
list yields one empty piece, and `n` separators yield `n + 1` pieces. -/
def splitPathsL : List Char → List (List Char)
  | [] => [[]]
  | c :: rest =>
    let r := splitPathsL rest
    if c = ':' then [] :: r
    else (c :: r.headI) :: r.tail

/-- Joining path pieces with the separator `':'` (the payload of the Rust
`std::env::join_paths` on unix, without its error check). -/
def joinPathsL : List (List Char) → List Char
  | [] => []
  | [p] => p
  | p :: rest => p ++ ':' :: joinPathsL rest

/-- The Rust `std::env::split_paths` (unix), on strings. -/
def splitPaths (s : String) : List String :=
  (splitPathsL s.data).map (fun l => String.mk l)

/-- The Rust `std::env::join_paths` (unix): `none` models the `Err` case,
taken exactly when some path contains the separator. -/
def joinPaths (ps : List String) : Option String :=
  if ps.any (fun p => containsSub p ":") then none
  else some (String.mk (joinPathsL (ps.map String.data)))

/-- The Rust `Path::join` with a relative right operand. -/
def pathJoin (base p : String) : String :=
  if base = "" then p
  else if base.endsWith "/" then base ++ p
  else base ++ "/" ++ p

/-- Source `fn prepend(var, val)` (build.rs lines 165-170):
reads `var` (unset behaves as the empty string), parses it with
`split_paths`, puts `val` in front, and writes back the joined list.
`none` models the panic of `env::join_paths(v).unwrap()`. -/
def prepend (e : Env) (var : String) (val : String) : Option Env :=
  let prior := (getVar e var).getD ""
  let v := val :: splitPaths prior
  match joinPaths v with
  | some joined => some (setVar e var joined)
  | none => none

/-- Source `fn register_dep(dep)` (build.rs lines 156-163): when
`DEP_<dep>_ROOT` is set, prepends `<root>/lib/pkgconfig` to
`PKG_CONFIG_PATH`; otherwise a no-op. -/
def register_dep (e : Env) (dep : String) : Option Env :=
  match getVar e ("DEP_" ++ dep ++ "_ROOT") with
  | some s => prepend e "PKG_CONFIG_PATH" (pathJoin s "lib/pkgconfig")
  | none => some e

/-- The dependency-registration phase of `main` (build.rs lines 22-27):
`register_dep("SSH2")` when the SSH feature is on, then
`register_dep("OPENSSL")` when the HTTPS feature is on. -/
def registerStep (e : Env) (ssh https : Bool) : Option Env :=
  match (if ssh then register_dep e "SSH2" else some e) with
  | none => none
  | some e1 => if https then register_dep e1 "OPENSSL" else some e1

/-- Result of a successfully spawned subprocess (the Rust type `std::process::Output`). -/
structure ProcOutput where
  status : Int
  stdout : String
  stderr : String

/-- Build.rs line 28: `Command::new("pkg-config").output().is_ok()`.
`output()` is `Err` only when the process could not be spawned; the exit status
and captured output of a spawned process never make it `Err`. -/
def hasPkgconfig (spawnResult : Option ProcOutput) : Bool :=
  spawnResult.isSome

/-- Build.rs lines 58-68: the manual SSH flag injection. Returns the list
of cflags added to the cmake configuration. -/
def sshInjectFlags (ssh windows has_pkgconfig msvc : Bool)
    (dep_ssh2_include : Option String) : List String :=
  if ssh && (windows || !has_pkgconfig) then
    match dep_ssh2_include with
    | some libssh2_include =>
      if msvc then ["/I" ++ libssh2_include, "/DGIT_SSH"]
      else ["-I" ++ libssh2_include, "-DGIT_SSH"]
    | none => []
  else []

/-- Build.rs lines 89-98, cmake dependencies: `register_dep("SSH2")` when
ssh is on, `register_dep("OPENSSL")` when https is on. -/
def capabilityDeps (ssh https : Bool) : List String :=
  (if ssh then ["SSH2"] else []) ++ (if https then ["OPENSSL"] else [])

/-- Build.rs lines 89-98, cmake defines: `USE_SSH=OFF` when ssh is off,
`USE_OPENSSL=OFF` when https is off. -/
def capabilityDefines (ssh https : Bool) : List (String × String) :=
  (if ssh then [] else [("USE_SSH", "OFF")]) ++
  (if https then [] else [("USE_OPENSSL", "OFF")])

/-- Build.rs lines 100-101: `let _ = fs::remove_dir_all(out)` followed by
`t!(fs::create_dir_all(out))`. The result of the removal is discarded;
only a failing creation panics. -/
def resetOutDir (removeResult createResult : Except String Unit) :
    Except String Unit :=
  let _ := removeResult
  createResult

/-- Build.rs lines 111-118: after the cmake build, when ssh is enabled and
the target is not msvc, read `build/CMakeFiles/git2.dir/flags.make` and
panic unless it contains `-DGIT_SSH`. `flagsFile` is the outcome of
`File::open` (`none` = open failed) followed by `read_to_string`. -/
def verify_ssh (ssh msvc : Bool) (flagsFile : Option (Except String String)) :
    Except String Unit :=
  if ssh && !msvc then
    match flagsFile with
    | none => Except.error "File::open(flags) failed"
    | some (Except.error e) => Except.error e
    | some (Except.ok contents) =>
      if !containsSub contents "-DGIT_SSH" then
        Except.error "libgit2 failed to find libssh2, and SSH support is required"
      else Except.ok ()
  else Except.ok ()

/-- Build.rs lines 138-145: the http_parser probe. `pc` is the outcome of
`File::open(lib/pkgconfig/libgit2.pc)` (`none` = open failed, silently
skipped) followed by `read_to_string` (a read failure panics). -/
def httpDirectives (pc : Option (Except String String)) :
    Except String (List String) :=
  match pc with
  | none => Except.ok []
  | some (Except.error e) => Except.error e
  | some (Except.ok contents) =>
    Except.ok (if containsSub contents "-lhttp_parser" then
      ["cargo:rustc-link-lib=http_parser"] else [])

/-- Build.rs lines 120-153: the link emitter. On a windows target it prints
four system libraries, the static git2 library and its search path, then
returns; otherwise it runs the http_parser probe, prints the static git2
library and its search path, and on apple targets appends iconv and the
Security and CoreFoundation frameworks. -/
def linkEmission (target dst : String)
    (openFile : String → Option (Except String String)) :
    Except String (List String) :=
  if containsSub target "windows" then
    Except.ok ["cargo:rustc-link-lib=winhttp",
      "cargo:rustc-link-lib=rpcrt4",
      "cargo:rustc-link-lib=ole32",
      "cargo:rustc-link-lib=crypt32",
      "cargo:rustc-link-lib=static=git2",
      "cargo:rustc-link-search=native=" ++ dst ++ "/lib"]
  else
    match httpDirectives (openFile (pathJoin dst "lib/pkgconfig/libgit2.pc")) with
    | Except.error e => Except.error e
    | Except.ok http =>
      Except.ok (http ++
        ["cargo:rustc-link-lib=static=git2",
         "cargo:rustc-link-search=native=" ++ pathJoin dst "lib"] ++
        (if containsSub target "apple" then
          ["cargo:rustc-link-lib=iconv",
           "cargo:rustc-link-lib=framework=Security",
           "cargo:rustc-link-lib=framework=CoreFoundation"]
        else []))

/-- All inputs of one run of the build script: the initial environment and
the outcomes of every external interaction (subprocess spawns, filesystem
operations, the cmake build). `openFile` maps a path to `none` when
`File::open` fails, and otherwise to the result of `read_to_string`. -/
structure World where
  env : Env
  pkgconfigProbe : Option ProcOutput
  findLibgit2Ok : Bool
  removeDirResult : Except String Unit
  createDirResult : Except String Unit
  dlltool : Option String
  cmakeOk : Bool
  cmakeDst : String
  openFile : String → Option (Except String String)

/-- How a run ends: a panic (non-zero exit), the early `return` after
finding a system libgit2 via pkg-config, or normal completion. -/
inductive Outcome where
  | panicked (msg : String)
  | usedSystemLibgit2
  | finished
deriving DecidableEq

/-- Everything a run leaves behind: its outcome, the environment after the
`register_dep` mutations, the accumulated cmake configuration, whether the
cmake build was invoked, and the `cargo:` directives printed by the script
itself (in order). -/
structure RunResult where
  outcome : Outcome
  envAfter : Env
  cflags : List String
  defines : List (String × String)
  cmakeDeps : List String
  cmakeInvoked : Bool
  printed : List String

/-- Source `fn main()` (build.rs lines 19-154), as a pure function of the
`World`. The dlltool discovery (lines 72-87) walks `PATH` through the
external `gcc` crate and probes the filesystem; its result is the oracle
`w.dlltool` (the value bound to the `DLLTOOL` define when the discovery
succeeds on a windows-target, non-windows-host run). The cmake build
itself is external; `w.cmakeOk` is whether it succeeds and `w.cmakeDst`
the directory it returns. -/
def main (w : World) : RunResult :=
  let https := (getVar w.env "CARGO_FEATURE_HTTPS").isSome
  let ssh := (getVar w.env "CARGO_FEATURE_SSH").isSome
  match registerStep w.env ssh https with
  | none =>
    ⟨Outcome.panicked "env::join_paths(v) failed", w.env, [], [], [], false, []⟩
  | some env2 =>
    let has_pkgconfig := hasPkgconfig w.pkgconfigProbe
    if (getVar env2 "LIBGIT2_SYS_USE_PKG_CONFIG").isSome && w.findLibgit2Ok then
      ⟨Outcome.usedSystemLibgit2, env2, [], [], [], false, []⟩
    else
      match getVar env2 "TARGET" with
      | none =>
        ⟨Outcome.panicked "env::var(TARGET) failed", env2, [], [], [], false, []⟩
      | some target =>
        match getVar env2 "HOST" with
        | none =>
          ⟨Outcome.panicked "env::var(HOST) failed", env2, [], [], [], false, []⟩
        | some host =>
          let windows := containsSub target "windows"
          let msvc := containsSub target "msvc"
          let cflagsA := if msvc then ["/GL-"] else []
          let definesA : List (String × String) :=
            if msvc then [("STATIC_CRT", "OFF")] else []
          let cflagsB := cflagsA ++
            sshInjectFlags ssh windows has_pkgconfig msvc
              (getVar env2 "DEP_SSH2_INCLUDE")
          let definesB := definesA ++
            (if windows && !containsSub host "windows" then
              match w.dlltool with
              | some d => [("DLLTOOL", d)]
              | none => []
            else [])
          let definesC := definesB ++ capabilityDefines ssh https
          let depsA := capabilityDeps ssh https
          match getVar env2 "OUT_DIR" with
          | none =>
            ⟨Outcome.panicked "env::var(OUT_DIR) failed", env2, cflagsB,
              definesC, depsA, false, []⟩
          | some _ =>
            match resetOutDir w.removeDirResult w.createDirResult with
            | Except.error e =>
              ⟨Outcome.panicked e, env2, cflagsB, definesC, depsA, false, []⟩
            | Except.ok _ =>
              let definesD := definesC ++
                [("BUILD_SHARED_LIBS", "OFF"), ("BUILD_CLAR", "OFF"),
                 ("CURL", "OFF")]
              let depsB := depsA ++ ["Z"]
              if !w.cmakeOk then
                ⟨Outcome.panicked "cmake build failed", env2, cflagsB,
                  definesD, depsB, true, []⟩
              else
                let dst := w.cmakeDst
                match verify_ssh ssh msvc
                    (w.openFile (pathJoin dst "build/CMakeFiles/git2.dir/flags.make")) with
                | Except.error e =>
                  ⟨Outcome.panicked e, env2, cflagsB, definesD, depsB, true, []⟩
                | Except.ok _ =>
                  match linkEmission target dst w.openFile with
                  | Except.error e =>
                    ⟨Outcome.panicked e, env2, cflagsB, definesD, depsB, true, []⟩
                  | Except.ok dirs =>
                    ⟨Outcome.finished, env2, cflagsB, definesD, depsB, true, dirs⟩

/-- Did the run end in a panic (non-zero process exit)? -/
def isPanicked : Outcome → Bool
  | Outcome.panicked _ => true
  | Outcome.usedSystemLibgit2 => false
  | Outcome.finished => false

/-- Is an `Except` result the error (panic) case? -/
def isErr {ε α : Type} : Except ε α → Bool
  | Except.error _ => true
  | Except.ok _ => false

/-- A run whose environment only opts into pkg-config discovery of a system
libgit2: the target and host triples are absent. -/
def c8World : World where
  env := [("LIBGIT2_SYS_USE_PKG_CONFIG", "1")]
  pkgconfigProbe := none
  findLibgit2Ok := true
  removeDirResult := Except.ok ()
  createDirResult := Except.ok ()
  dlltool := none
  cmakeOk := true
  cmakeDst := "/out"
  openFile := fun _ => none

/-- A concrete run taking the system-libgit2 short circuit. -/
def c9World : World where
  env := [("LIBGIT2_SYS_USE_PKG_CONFIG", "yes")]
  pkgconfigProbe := none
  findLibgit2Ok := true
  removeDirResult := Except.ok ()
  createDirResult := Except.ok ()
  dlltool := none
  cmakeOk := true
  cmakeDst := "/out"
  openFile := fun _ => none

/-- A run with an empty environment: no features, no opt-in, no triples. -/
def c8WitnessWorld : World where
  env := []
  pkgconfigProbe := none
  findLibgit2Ok := false
  removeDirResult := Except.ok ()
  createDirResult := Except.ok ()
  dlltool := none
  cmakeOk := true
  cmakeDst := "/out"
  openFile := fun _ => none

end Git2Build

namespace Git2Build

theorem splitPathsL_ne_nil (l : List Char) : splitPathsL l ≠ [] := by
  cases l with
  | nil => simp [splitPathsL]
  | cons c rest =>
    simp only [splitPathsL]
    split <;> simp

theorem splitPathsL_cons (c : Char) (rest : List Char) :
    splitPathsL (c :: rest) =
      if c = ':' then [] :: splitPathsL rest
      else (c :: (splitPathsL rest).headI) :: (splitPathsL rest).tail := rfl

theorem mem_splitPathsL {l p : List Char} (hp : p ∈ splitPathsL l) : ':' ∉ p := by
  induction l generalizing p with
  | nil =>
    simp only [splitPathsL, List.mem_singleton] at hp
    subst hp
    simp
  | cons c rest ih =>
    cases hS : splitPathsL rest with
    | nil => exact absurd hS (splitPathsL_ne_nil rest)
    | cons s0 st =>
      rw [splitPathsL_cons, hS] at hp
      by_cases hc : c = ':'
      · rw [if_pos hc] at hp
        rcases List.mem_cons.mp hp with h | h
        · subst h; simp
        · exact ih (hS ▸ h)
      · rw [if_neg hc] at hp
        simp only [List.headI, List.tail_cons] at hp
        rcases List.mem_cons.mp hp with h | h
        · subst h
          intro hmem
          rcases List.mem_cons.mp hmem with h' | h'
          · exact hc h'.symm
          · exact ih (hS ▸ List.mem_cons_self s0 st) h'
        · exact ih (hS ▸ List.mem_cons_of_mem s0 h)

theorem splitPathsL_no_colon {a : List Char} (h : ':' ∉ a) : splitPathsL a = [a] := by
  induction a with
  | nil => rfl
  | cons c rest ih =>
    have hc : c ≠ ':' := fun hh => h (hh ▸ List.mem_cons_self c rest)
    have hrest : ':' ∉ rest := fun hh => h (List.mem_cons_of_mem c hh)
    simp only [splitPathsL, if_neg hc, ih hrest]
    rfl

theorem splitPathsL_append_colon {a : List Char} (r : List Char) (h : ':' ∉ a) :
    splitPathsL (a ++ ':' :: r) = a :: splitPathsL r := by
  induction a with
  | nil => simp [splitPathsL]
  | cons c rest ih =>
    have hc : c ≠ ':' := fun hh => h (hh ▸ List.mem_cons_self c rest)
    have hrest : ':' ∉ rest := fun hh => h (List.mem_cons_of_mem c hh)
    rw [List.cons_append, splitPathsL_cons, if_neg hc, ih hrest]
    rfl

theorem splitPathsL_joinPathsL :
    ∀ l : List (List Char), l ≠ [] → (∀ p ∈ l, ':' ∉ p) →
      splitPathsL (joinPathsL l) = l := by
  intro l
  induction l with
  | nil => intro h; exact absurd rfl h
  | cons a t ih =>
    intro _ hfree
    cases t with
    | nil =>
      show splitPathsL (joinPathsL [a]) = [a]
      have : joinPathsL [a] = a := rfl
      rw [this]
      exact splitPathsL_no_colon (hfree a (List.mem_cons_self a []))
    | cons b t' =>
      have hjoin : joinPathsL (a :: b :: t') = a ++ ':' :: joinPathsL (b :: t') := rfl
      rw [hjoin, splitPathsL_append_colon _ (hfree a (List.mem_cons_self a _))]
      rw [ih (by simp) (fun p hp => hfree p (List.mem_cons_of_mem a hp))]

theorem containsAux_singleton (c : Char) (l : List Char) :
    containsAux [c] l = true ↔ c ∈ l := by
  induction l with
  | nil => simp [containsAux]
  | cons b bs ih =>
    simp [containsAux, isPre, ih, List.mem_cons]

theorem colon_data : (":" : String).data = [':'] := rfl

theorem containsSub_colon_iff (s : String) :
    containsSub s ":" = true ↔ ':' ∈ s.data := by
  rw [containsSub, colon_data]
  exact containsAux_singleton ':' s.data

theorem mem_splitPaths_colon_false (s : String) :
    ∀ p ∈ splitPaths s, containsSub p ":" = false := by
  intro p hp
  unfold splitPaths at hp
  rcases List.mem_map.mp hp with ⟨l, hl, rfl⟩
  have h1 : ':' ∉ (String.mk l).data := mem_splitPathsL hl
  rw [← Bool.not_eq_true]
  intro hc
  exact h1 ((containsSub_colon_iff (String.mk l)).mp hc)

theorem getVar_setVar_self (e : Env) (k v : String) :
    getVar (setVar e k v) k = some v := by
  simp [getVar, setVar, List.find?]

theorem splitPaths_map_data (s : String) :
    (splitPaths s).map String.data = splitPathsL s.data := by
  unfold splitPaths
  rw [List.map_map]
  have hid : (String.data ∘ fun l => String.mk l) = id := rfl
  rw [hid, List.map_id]

theorem prepend_spec (e : Env) (var val : String)
    (hval : containsSub val ":" = false) :
    ∃ out, prepend e var val = some out ∧
      splitPaths ((getVar out var).getD "") =
        val :: splitPaths ((getVar e var).getD "") := by
  have hpieces := mem_splitPaths_colon_false ((getVar e var).getD "")
  have hany : ((val :: splitPaths ((getVar e var).getD "")).any
      fun p => containsSub p ":") = false := by
    rw [List.any_eq_false]
    intro p hp
    rcases List.mem_cons.mp hp with h | h
    · rw [h, hval]; simp
    · rw [hpieces p h]; simp
  have hjoin : joinPaths (val :: splitPaths ((getVar e var).getD "")) =
      some (String.mk (joinPathsL
        ((val :: splitPaths ((getVar e var).getD "")).map String.data))) := by
    unfold joinPaths
    rw [hany]
    rfl
  refine ⟨setVar e var (String.mk (joinPathsL
      ((val :: splitPaths ((getVar e var).getD "")).map String.data))), ?_, ?_⟩
  · show (match joinPaths (val :: splitPaths ((getVar e var).getD "")) with
      | some joined => some (setVar e var joined)
      | none => none) = _
    rw [hjoin]
  · rw [getVar_setVar_self]
    show splitPaths (String.mk (joinPathsL
      ((val :: splitPaths ((getVar e var).getD "")).map String.data))) = _
    have hmap : (val :: splitPaths ((getVar e var).getD "")).map String.data =
        val.data :: splitPathsL ((getVar e var).getD "").data := by
      rw [List.map_cons, splitPaths_map_data]
    rw [hmap]
    show (splitPathsL (joinPathsL
      (val.data :: splitPathsL ((getVar e var).getD "").data))).map
        (fun l => String.mk l) = _
    rw [splitPathsL_joinPathsL (val.data :: splitPathsL ((getVar e var).getD "").data)
      (by simp)
      (by
        intro p hp
        rcases List.mem_cons.mp hp with h | h
        · subst h
          intro hmem
          have hcol : containsSub val ":" = true :=
            (containsSub_colon_iff val).mpr hmem
          rw [hval] at hcol
          exact Bool.false_ne_true hcol
        · exact mem_splitPathsL h)]
    rfl

end Git2Build

namespace Git2Build

/-- C1: with the SSH capability enabled and a non-MSVC target, the
post-build verification reads the generated flags file and panics exactly
when its contents lack the `-DGIT_SSH` marker; with an MSVC target or SSH
disabled, the verification is not performed at all (its result is `ok`
whatever the flags file holds). -/
theorem c1_ssh_verification (target contents : String) (ssh : Bool) :
    (ssh = true → containsSub target "msvc" = false →
      ((∃ msg, verify_ssh ssh (containsSub target "msvc")
          (some (Except.ok contents)) = Except.error msg) ↔
        containsSub contents "-DGIT_SSH" = false)) ∧
    ((ssh = false ∨ containsSub target "msvc" = true) →
      ∀ flagsFile, verify_ssh ssh (containsSub target "msvc") flagsFile =
        Except.ok ()) := by
  constructor
  · intro hssh hmsvc
    rw [hssh, hmsvc]
    cases hcon : containsSub contents "-DGIT_SSH" <;>
      simp [verify_ssh, hcon]
  · intro h flagsFile
    rcases h with h | h <;> rw [h] <;> simp [verify_ssh]

/-- Witness for C1 at a concrete input. -/
theorem c1_ssh_verification_witness :
    verify_ssh false (containsSub "x86_64-pc-windows-msvc" "msvc") none =
      Except.ok () :=
  (c1_ssh_verification "x86_64-pc-windows-msvc" "" false).2 (Or.inl rfl) none

/-- C2: the manual SSH flag injection fires exactly when SSH is enabled,
the target is windows or pkg-config is unavailable, and the
`DEP_SSH2_INCLUDE` hint is set; it then injects exactly
`/I<path>`, `/DGIT_SSH` on MSVC and `-I<path>`, `-DGIT_SSH` otherwise;
with no hint it is skipped entirely. -/
theorem c2_injection_exact (ssh windows has_pkgconfig msvc : Bool)
    (hint : Option String) :
    (sshInjectFlags ssh windows has_pkgconfig msvc hint ≠ [] ↔
      (ssh = true ∧ (windows = true ∨ has_pkgconfig = false) ∧
        hint.isSome = true)) ∧
    (∀ p, hint = some p → ssh = true →
      (windows = true ∨ has_pkgconfig = false) →
      sshInjectFlags ssh windows has_pkgconfig msvc hint =
        if msvc then ["/I" ++ p, "/DGIT_SSH"]
        else ["-I" ++ p, "-DGIT_SSH"]) ∧
    (hint = none → sshInjectFlags ssh windows has_pkgconfig msvc hint = []) := by
  cases ssh <;> cases windows <;> cases has_pkgconfig <;> cases msvc <;>
    cases hint <;> simp [sshInjectFlags]

/-- Witness for C2 at a concrete input. -/
theorem c2_injection_exact_witness :
    sshInjectFlags true false false false (some "/opt/ssh2/include") =
      if false then ["/I" ++ "/opt/ssh2/include", "/DGIT_SSH"]
      else ["-I" ++ "/opt/ssh2/include", "-DGIT_SSH"] :=
  (c2_injection_exact true false false false (some "/opt/ssh2/include")).2.1
    "/opt/ssh2/include" rfl rfl (Or.inr rfl)

/-- C3: for every combination of the SSH and HTTPS flags, an enabled
capability registers its cmake dependency (SSH2 resp. OPENSSL) and emits
no `USE_*=OFF` define, while a disabled one registers nothing and emits
the explicit `USE_SSH=OFF` resp. `USE_OPENSSL=OFF` define. -/
theorem c3_capability_explicit (ssh https : Bool) :
    (ssh = true → "SSH2" ∈ capabilityDeps ssh https ∧
      ("USE_SSH", "OFF") ∉ capabilityDefines ssh https) ∧
    (ssh = false → "SSH2" ∉ capabilityDeps ssh https ∧
      ("USE_SSH", "OFF") ∈ capabilityDefines ssh https) ∧
    (https = true → "OPENSSL" ∈ capabilityDeps ssh https ∧
      ("USE_OPENSSL", "OFF") ∉ capabilityDefines ssh https) ∧
    (https = false → "OPENSSL" ∉ capabilityDeps ssh https ∧
      ("USE_OPENSSL", "OFF") ∈ capabilityDefines ssh https) := by
  cases ssh <;> cases https <;>
    simp [capabilityDeps, capabilityDefines]

/-- Witness for C3 at a concrete input. -/
theorem c3_capability_explicit_witness :
    "SSH2" ∈ capabilityDeps true false ∧
      ("USE_SSH", "OFF") ∉ capabilityDefines true false :=
  (c3_capability_explicit true false).1 rfl

/-- C4 counterexample: prepending to an unset search-path variable does not
leave the remaining entries empty — parsing the written-back value yields a
trailing empty path, because the empty prior value splits into one empty
path ("val:" is written, which parses as the new path plus an empty
entry). -/
theorem c4_counterexample :
    prepend [] "PKG_CONFIG_PATH" "/root/lib/pkgconfig" =
      some [("PKG_CONFIG_PATH", "/root/lib/pkgconfig:")] ∧
    splitPaths "/root/lib/pkgconfig:" = ["/root/lib/pkgconfig", ""] ∧
    ["/root/lib/pkgconfig", ""] ≠ ["/root/lib/pkgconfig"] := by
  refine ⟨rfl, rfl, by decide⟩

/-- C4 (amended): whenever the new path contains no separator, `prepend`
succeeds and the written-back variable parses to the new path followed by
exactly the parse of the prior value, in original relative order — where
an unset variable behaves as the empty string, whose parse is one empty
path (so that case gains a trailing empty entry). -/
theorem c4_prepend_amended (e : Env) (var val : String)
    (hval : containsSub val ":" = false) :
    (prepend e var val).isSome = true ∧
    splitPaths ((getVar ((prepend e var val).getD []) var).getD "") =
      val :: splitPaths ((getVar e var).getD "") := by
  obtain ⟨out, h1, h2⟩ := prepend_spec e var val hval
  rw [h1]
  exact ⟨rfl, h2⟩

/-- Witness for C4 (amended) at a concrete input. -/
theorem c4_prepend_amended_witness :
    (prepend [("PKG_CONFIG_PATH", "/usr/lib/pkgconfig")] "PKG_CONFIG_PATH"
      "/opt/dep/lib/pkgconfig").isSome = true ∧
    splitPaths ((getVar ((prepend [("PKG_CONFIG_PATH", "/usr/lib/pkgconfig")]
        "PKG_CONFIG_PATH" "/opt/dep/lib/pkgconfig").getD [])
        "PKG_CONFIG_PATH").getD "") =
      "/opt/dep/lib/pkgconfig" ::
        splitPaths ((getVar [("PKG_CONFIG_PATH", "/usr/lib/pkgconfig")]
          "PKG_CONFIG_PATH").getD "") :=
  c4_prepend_amended [("PKG_CONFIG_PATH", "/usr/lib/pkgconfig")]
    "PKG_CONFIG_PATH" "/opt/dep/lib/pkgconfig" (by decide)

/-- C5: on a windows-family target the link emitter emits exactly, in
order, the four fixed system libraries, the static git2 library and its
search path, and returns immediately — its output never depends on the
generated package-metadata file and never contains the Apple entries. -/
theorem c5_windows_links (target dst : String)
    (f g : String → Option (Except String String))
    (hwin : containsSub target "windows" = true) :
    linkEmission target dst f =
      Except.ok ["cargo:rustc-link-lib=winhttp",
        "cargo:rustc-link-lib=rpcrt4",
        "cargo:rustc-link-lib=ole32",
        "cargo:rustc-link-lib=crypt32",
        "cargo:rustc-link-lib=static=git2",
        "cargo:rustc-link-search=native=" ++ dst ++ "/lib"] ∧
    linkEmission target dst f = linkEmission target dst g := by
  constructor <;> simp [linkEmission, hwin]

/-- Witness for C5 at a concrete input. -/
theorem c5_windows_links_witness :
    linkEmission "x86_64-pc-windows-gnu" "/out"
        (fun _ => some (Except.error "unreadable")) =
      Except.ok ["cargo:rustc-link-lib=winhttp",
        "cargo:rustc-link-lib=rpcrt4",
        "cargo:rustc-link-lib=ole32",
        "cargo:rustc-link-lib=crypt32",
        "cargo:rustc-link-lib=static=git2",
        "cargo:rustc-link-search=native=" ++ "/out" ++ "/lib"] ∧
    linkEmission "x86_64-pc-windows-gnu" "/out"
        (fun _ => some (Except.error "unreadable")) =
      linkEmission "x86_64-pc-windows-gnu" "/out" (fun _ => none) :=
  c5_windows_links "x86_64-pc-windows-gnu" "/out"
    (fun _ => some (Except.error "unreadable")) (fun _ => none) (by decide)

/-- C6: on an Apple-family (non-windows) target, when the package-metadata
probe does not panic, the emitted directives are the http_parser prefix
followed by the static git2 library, its search path, and then iconv and
the Security and CoreFoundation frameworks — the three Apple entries come
strictly after the native-library and search-path directives. -/
theorem c6_apple_links (target dst : String)
    (f : String → Option (Except String String)) (http : List String)
    (happle : containsSub target "apple" = true)
    (hwin : containsSub target "windows" = false)
    (hpc : httpDirectives (f (pathJoin dst "lib/pkgconfig/libgit2.pc")) =
      Except.ok http) :
    linkEmission target dst f =
      Except.ok (http ++
        ["cargo:rustc-link-lib=static=git2",
         "cargo:rustc-link-search=native=" ++ pathJoin dst "lib",
         "cargo:rustc-link-lib=iconv",
         "cargo:rustc-link-lib=framework=Security",
         "cargo:rustc-link-lib=framework=CoreFoundation"]) := by
  simp [linkEmission, hwin, happle, hpc]

/-- Witness for C6 at a concrete input. -/
theorem c6_apple_links_witness :
    linkEmission "aarch64-apple-darwin" "/out" (fun _ => none) =
      Except.ok ([] ++
        ["cargo:rustc-link-lib=static=git2",
         "cargo:rustc-link-search=native=" ++ pathJoin "/out" "lib",
         "cargo:rustc-link-lib=iconv",
         "cargo:rustc-link-lib=framework=Security",
         "cargo:rustc-link-lib=framework=CoreFoundation"]) :=
  c6_apple_links "aarch64-apple-darwin" "/out" (fun _ => none) []
    (by decide) (by decide) rfl

end Git2Build

namespace Git2Build

/-- C7 counterexample: a failing delete of the output directory does not
abort — `let _ = fs::remove_dir_all(..)` discards the error and the run
continues as long as the recreate succeeds. -/
theorem c7_counterexample :
    resetOutDir (Except.error "remove_dir_all failed: permission denied")
      (Except.ok ()) = Except.ok () := rfl

/-- C7 (amended): filesystem failures are fatal with these exceptions —
a failing recreate of the output directory aborts, but a failing delete is
silently discarded; a failure to open or read the generated flags file
aborts (when the verification runs); a failure to read the generated
libgit2.pc after a successful open aborts, but a failing open of
libgit2.pc is silently skipped. -/
theorem c7_fs_failures_amended :
    (∀ (r : Except String Unit) (msg : String),
      resetOutDir r (Except.error msg) = Except.error msg) ∧
    (∀ r : Except String Unit, resetOutDir r (Except.ok ()) = Except.ok ()) ∧
    (∀ msg : String,
      verify_ssh true false (some (Except.error msg)) = Except.error msg) ∧
    isErr (verify_ssh true false none) = true ∧
    (∀ (target dst : String) (f : String → Option (Except String String))
      (msg : String),
      containsSub target "windows" = false →
      f (pathJoin dst "lib/pkgconfig/libgit2.pc") = some (Except.error msg) →
      linkEmission target dst f = Except.error msg) ∧
    (∀ (target dst : String) (f : String → Option (Except String String)),
      containsSub target "windows" = false →
      f (pathJoin dst "lib/pkgconfig/libgit2.pc") = none →
      isErr (linkEmission target dst f) = false) := by
  refine ⟨fun r msg => rfl, fun r => rfl, fun msg => rfl, rfl, ?_, ?_⟩
  · intro target dst f msg hwin hf
    simp [linkEmission, hwin, hf, httpDirectives]
  · intro target dst f hwin hf
    simp [linkEmission, hwin, hf, httpDirectives, isErr]

/-- Witness for C7 (amended) at a concrete input. -/
theorem c7_fs_failures_amended_witness :
    linkEmission "x86_64-unknown-linux-gnu" "/out"
        (fun _ => some (Except.error "read_to_string failed")) =
      Except.error "read_to_string failed" :=
  c7_fs_failures_amended.2.2.2.2.1 "x86_64-unknown-linux-gnu" "/out"
    (fun _ => some (Except.error "read_to_string failed"))
    "read_to_string failed" (by decide) rfl

/-- C8 counterexample: a run with the target and host triples absent that
does not fail — the system-libgit2 short circuit returns success before
the triples are ever read. -/
theorem c8_counterexample :
    getVar c8World.env "TARGET" = none ∧
    getVar c8World.env "HOST" = none ∧
    (main c8World).outcome = Outcome.usedSystemLibgit2 ∧
    isPanicked (main c8World).outcome = false := by
  refine ⟨rfl, rfl, rfl, rfl⟩

/-- C8 (amended): in a run that reaches the triple-reading step (the
dependency registration succeeded and the system-libgit2 short circuit was
not taken), the absence of the target or host triple makes the run panic,
with nothing printed, the generator never invoked, and the cmake
configuration left empty. -/
theorem c8_missing_triple_amended (w : World) (e2 : Env)
    (hreg : registerStep w.env ((getVar w.env "CARGO_FEATURE_SSH").isSome)
      ((getVar w.env "CARGO_FEATURE_HTTPS").isSome) = some e2)
    (hshort : ((getVar e2 "LIBGIT2_SYS_USE_PKG_CONFIG").isSome &&
      w.findLibgit2Ok) = false)
    (hmiss : getVar e2 "TARGET" = none ∨ getVar e2 "HOST" = none) :
    isPanicked (main w).outcome = true ∧
    (main w).printed = [] ∧
    (main w).cmakeInvoked = false ∧
    (main w).cflags = [] ∧
    (main w).defines = [] ∧
    (main w).cmakeDeps = [] := by
  have hmain : ∃ msg, main w =
      ⟨Outcome.panicked msg, e2, [], [], [], false, []⟩ := by
    simp only [main]
    rw [hreg]
    simp only [hshort, Bool.false_eq_true, if_false]
    rcases hmiss with h | h
    · rw [h]
      exact ⟨"env::var(TARGET) failed", rfl⟩
    · cases ht : getVar e2 "TARGET" with
      | none => exact ⟨"env::var(TARGET) failed", rfl⟩
      | some t =>
        rw [h]
        exact ⟨"env::var(HOST) failed", rfl⟩
  obtain ⟨msg, hm⟩ := hmain
  rw [hm]
  exact ⟨rfl, rfl, rfl, rfl, rfl, rfl⟩

/-- Witness for C8 (amended) at a concrete input. -/
theorem c8_missing_triple_amended_witness :
    isPanicked (main c8WitnessWorld).outcome = true ∧
    (main c8WitnessWorld).printed = [] ∧
    (main c8WitnessWorld).cmakeInvoked = false ∧
    (main c8WitnessWorld).cflags = [] ∧
    (main c8WitnessWorld).defines = [] ∧
    (main c8WitnessWorld).cmakeDeps = [] :=
  c8_missing_triple_amended c8WitnessWorld [] rfl rfl (Or.inl rfl)

/-- C9: when the pkg-config opt-in is set and a system libgit2 is found,
the run returns before reading the triples — for any world, even one with
no TARGET or HOST, the outcome is the early return, nothing is printed, no
cmake configuration is built and the generator is never invoked, yet the
environment mutations of the dependency registration (the PKG_CONFIG_PATH
prepends for the enabled features) have already happened and remain in
effect. -/
theorem c9_short_circuit (w : World) (e2 : Env)
    (hreg : registerStep w.env ((getVar w.env "CARGO_FEATURE_SSH").isSome)
      ((getVar w.env "CARGO_FEATURE_HTTPS").isSome) = some e2)
    (hshort : (getVar e2 "LIBGIT2_SYS_USE_PKG_CONFIG").isSome = true)
    (hfind : w.findLibgit2Ok = true) :
    (main w).outcome = Outcome.usedSystemLibgit2 ∧
    (main w).printed = [] ∧
    (main w).cmakeInvoked = false ∧
    (main w).cflags = [] ∧
    (main w).defines = [] ∧
    (main w).cmakeDeps = [] ∧
    (main w).envAfter = e2 := by
  have hmain : main w = ⟨Outcome.usedSystemLibgit2, e2, [], [], [], false, []⟩ := by
    simp only [main]
    rw [hreg]
    simp [hshort, hfind]
  rw [hmain]
  exact ⟨rfl, rfl, rfl, rfl, rfl, rfl, rfl⟩

/-- Witness for C9 at a concrete input. -/
theorem c9_short_circuit_witness :
    (main c9World).outcome = Outcome.usedSystemLibgit2 ∧
    (main c9World).printed = [] ∧
    (main c9World).cmakeInvoked = false ∧
    (main c9World).cflags = [] ∧
    (main c9World).defines = [] ∧
    (main c9World).cmakeDeps = [] ∧
    (main c9World).envAfter = [("LIBGIT2_SYS_USE_PKG_CONFIG", "yes")] :=
  c9_short_circuit c9World [("LIBGIT2_SYS_USE_PKG_CONFIG", "yes")]
    rfl rfl rfl

/-- C10: pkg-config availability is decided solely by whether the probe
process could be spawned — any spawned process counts as available whatever
its exit status and output, no process counts as unavailable, and with a
spawned (even failing) pkg-config the injection does not fire on a
non-windows target despite SSH being enabled and a hint being set. -/
theorem c10_pkgconfig_probe :
    (∀ probe : ProcOutput, hasPkgconfig (some probe) = true) ∧
    hasPkgconfig none = false ∧
    (∀ (code : Int) (so se inc : String) (msvc : Bool),
      sshInjectFlags true false (hasPkgconfig (some ⟨code, so, se⟩)) msvc
        (some inc) = []) :=
  ⟨fun _ => rfl, rfl, fun _ _ _ _ _ => rfl⟩

end Git2Build
